import Mathlib

/-!
Shallow embedding of the kokorofile repository (two Python files:
`kokorofile.py`, the CLI variant, and `server.py`, the FastAPI variant),
with theorems settling the spec claims.

External effects (network downloads, model construction, synthesis calls)
are made explicit: the CLI variant threads a `World` record of cache
contents and side-effect counters; the HTTP variant threads a
`ServerState` and takes the synthesis engine and the voices directory as
parameters.
-/

namespace Kokorofile

/- ===================== CLI variant: kokorofile.py ===================== -/

/-- World state threaded through the CLI variant: which artifact files are
present in the cache directory, and counters for the observable side
effects (network downloads per artifact, `Kokoro(...)` model
constructions, `kokoro.create` synthesis calls). -/
structure World where
  hasModelFile : Bool
  hasVoicesFile : Bool
  modelDownloads : Nat
  voicesDownloads : Nat
  kokoroConstructions : Nat
  synthCalls : Nat
deriving DecidableEq

/-- `os.path.join(cache_dir, name)` (POSIX form, as used on the cache
paths in `download_model_files`). -/
def path_join (dir name : String) : String := dir ++ "/" ++ name

/-- `download_model_files(cache_dir)` (kokorofile.py lines 36-56): for each
of the two artifact files, downloads it only when it does not already
exist on disk, and returns the pair of paths. A download makes the file
exist and increments the corresponding download counter. -/
def download_model_files (cacheDir : String) (w : World) :
    World × String × String :=
  let modelPath := path_join cacheDir "kokoro-v1.0.onnx"
  let voicesPath := path_join cacheDir "voices-v1.0.bin"
  let w1 := if w.hasModelFile then w
    else { w with hasModelFile := true, modelDownloads := w.modelDownloads + 1 }
  let w2 := if w1.hasVoicesFile then w1
    else { w1 with hasVoicesFile := true, voicesDownloads := w1.voicesDownloads + 1 }
  (w2, modelPath, voicesPath)

/-- `text_to_speech` (kokorofile.py lines 58-92): resolves artifacts, then
constructs a fresh `Kokoro(model_path, voices_path)` instance, then calls
`kokoro.create(text, ...)`. The external engine's outcome is the
parameter `synthOk` (`false` models `kokoro.create` raising); the output
sink (file write / device playback) follows on success and is not
observable by any claim. `speed` and `debug` affect only the engine call
and logging and carry no control flow, so they are not modelled. -/
def text_to_speech (_text : String) (_output : Option String)
    (_device : Option Int) (_voice : String) (_lang : String)
    (cacheDir : String) (synthOk : Bool) (w : World) : World × Bool :=
  let r := download_model_files cacheDir w
  let w1 := r.1
  let w2 := { w1 with kokoroConstructions := w1.kokoroConstructions + 1 }
  let w3 := { w2 with synthCalls := w2.synthCalls + 1 }
  (w3, synthOk)

/-- Python's `str.strip()` with no arguments: remove leading and trailing
whitespace characters. Defined by structural recursion over the string's
characters so that it evaluates on concrete inputs. -/
def strip (s : String) : String :=
  ⟨((s.data.dropWhile Char.isWhitespace).reverse.dropWhile
      Char.isWhitespace).reverse⟩

/-- Parsed CLI arguments (kokorofile.py lines 150-165). `--cache-dir`,
`--data-dir`, `--host`, `--port`, `--speed`, `--debug` are parsed by the
source but either unused or control-flow-irrelevant to the claims. -/
structure Args where
  input : Option String
  output : Option String
  device : Option Int
  list_devices : Bool
  voice : String
  lang : String
  server : Bool
deriving DecidableEq

/-- Outcome of a CLI run: the process exit code, the messages written to
stderr (both `print(..., file=sys.stderr)` and `logging.error`, whose
default handler writes to stderr), and the final world. -/
structure CliOutcome where
  exitCode : Nat
  stderr : List String
  world : World
deriving DecidableEq

/-- Input-text resolution (kokorofile.py lines 179-188): a positional
argument is read as a file (stripped) when it names an existing file,
otherwise taken literally; with no positional argument, stdin is read and
stripped. `readFile p = some c` models `os.path.isfile(p)` true with
content `c`; `none` models a non-file argument. -/
def resolve_text (input : Option String) (stdinText : String)
    (readFile : String → Option String) : String :=
  match input with
  | some inp =>
    match readFile inp with
    | some content => strip content
    | none => inp
  | none => strip stdinText

/-- `main()` (kokorofile.py lines 149-206): `--server` launches the HTTP
server (blocking; modelled as returning with exit code 0 and no synthesis
in this process path), `-l` (list devices) prints devices and returns,
otherwise the input text is resolved, an empty text exits 1 with a stderr
message, and `text_to_speech` is attempted with exit 1 and a logged error
on failure. -/
def main (args : Args) (stdinText : String)
    (readFile : String → Option String) (cacheDir : String)
    (synthOk : Bool) (synthErr : String) (w : World) : CliOutcome :=
  if args.server then
    { exitCode := 0, stderr := [], world := w }
  else if args.list_devices then
    { exitCode := 0, stderr := [], world := w }
  else
    let text := resolve_text args.input stdinText readFile
    if text = "" then
      { exitCode := 1, stderr := ["Error: " ++ "No input text provided"],
        world := w }
    else
      let r := text_to_speech text args.output args.device args.voice
        args.lang cacheDir synthOk w
      if r.2 then { exitCode := 0, stderr := [], world := r.1 }
      else { exitCode := 1, stderr := ["Error: " ++ synthErr], world := r.1 }

/- ============== WAV serialization (server.py lines 92-99) ============== -/

/-- Little-endian 16-bit field, as `struct.pack` with format `<H`. -/
def u16le (n : Nat) : List Nat := [n % 256, n / 256 % 256]

/-- Little-endian 32-bit field, as `struct.pack` with format `<L`. -/
def u32le (n : Nat) : List Nat :=
  [n % 256, n / 256 % 256, n / 65536 % 256, n / 16777216 % 256]

/-- The 44-byte canonical RIFF/WAVE header the Python `wave` module emits
for the configuration fixed by `synthesize_file` (`setnchannels(1)`,
`setsampwidth(2)`, `setframerate(24000)`), after the module patches the
two size fields to the number of data bytes actually written:
`RIFF`, ChunkSize, `WAVE`, `fmt `, Subchunk1Size 16, AudioFormat 1 (PCM),
NumChannels, SampleRate, ByteRate (`nchannels*framerate*sampwidth`),
BlockAlign (`nchannels*sampwidth`), BitsPerSample (`sampwidth*8`),
`data`, Subchunk2Size. -/
def wav_header (dataSize : Nat) : List Nat :=
  [82, 73, 70, 70] ++ u32le (36 + dataSize) ++
  [87, 65, 86, 69] ++
  [102, 109, 116, 32] ++ u32le 16 ++
  u16le 1 ++
  u16le 1 ++
  u32le 24000 ++
  u32le (1 * 24000 * 2) ++
  u16le (1 * 2) ++
  u16le (2 * 8) ++
  [100, 97, 116, 97] ++ u32le dataSize

/-- The WAV body `synthesize_file` streams back: the result of writing the
joined PCM bytes through `wave.open(buf, "wb")` with the fixed mono /
16-bit / 24000 Hz configuration. -/
def write_wav (pcm : List Nat) : List Nat := wav_header pcm.length ++ pcm

/-- Decode a little-endian 16-bit field at byte offset `i`. -/
def readU16 (bs : List Nat) (i : Nat) : Nat :=
  bs.getD i 0 + 256 * bs.getD (i + 1) 0

/-- Decode a little-endian 32-bit field at byte offset `i`. -/
def readU32 (bs : List Nat) (i : Nat) : Nat :=
  bs.getD i 0 + 256 * bs.getD (i + 1) 0 + 65536 * bs.getD (i + 2) 0 +
    16777216 * bs.getD (i + 3) 0

/- ===================== HTTP variant: server.py ===================== -/

/-- `Settings` pydantic model (server.py lines 19-21). -/
structure Settings where
  lang_code : String := "a"
  voice : String := "af_sky"
deriving DecidableEq

/-- A `KPipeline`: the constructor call `KPipeline(model=core_model,
lang_code=lang_code)` shares the single `core_model`, so the pipeline's
own data is its language code. -/
structure KPipeline where
  lang_code : String
deriving DecidableEq

/-- The voices directory on disk: whether `VOICE_DIR` exists, and the
`*.pt` filenames `VOICE_DIR.glob("*.pt")` yields when it does. -/
structure FS where
  voiceDirExists : Bool
  ptFiles : List String
deriving DecidableEq

/-- `get_available_voices()` (server.py lines 41-45): the empty list when
`VOICE_DIR` does not exist, otherwise the `.pt` filenames. -/
def get_available_voices (fs : FS) : List String :=
  if fs.voiceDirExists then fs.ptFiles else []

/-- `create_pipeline(lang_code)` (server.py lines 34-35). -/
def create_pipeline (lang_code : String) : KPipeline := ⟨lang_code⟩

/-- Process-wide server state: the global `settings` and `pipeline`
(server.py lines 37-39) plus a counter of `KModel` loads making model
construction observable. -/
structure ServerState where
  settings : Settings
  pipeline : KPipeline
  modelLoads : Nat
deriving DecidableEq

/-- Module initialization (server.py lines 27-39): the core model is
loaded once, eagerly, at import; then default settings and a pipeline
from their `lang_code`. -/
def server_init : ServerState :=
  let s : Settings := {}
  { settings := s, pipeline := create_pipeline s.lang_code, modelLoads := 1 }

/-- `SettingsOut` response model (server.py lines 23-24). -/
structure SettingsOut where
  lang_code : String
  voice : String
  available_voices : List String
deriving DecidableEq

/-- Result of the `POST /settings` handler: HTTP status, the server state
after the request, and the response body when status 200. -/
structure UpdateResult where
  status : Nat
  state : ServerState
  body : Option SettingsOut
deriving DecidableEq

/-- `update_settings` (server.py lines 58-73): 400 when the requested
voice is not among the available voices (state untouched); otherwise the
globals `settings` and `pipeline` are replaced and the new settings are
echoed back. -/
def update_settings (fs : FS) (st : ServerState) (new : Settings) :
    UpdateResult :=
  let voices := get_available_voices fs
  if new.voice ∉ voices then
    { status := 400, state := st, body := none }
  else
    let st' : ServerState :=
      { st with settings := new, pipeline := create_pipeline new.lang_code }
    { status := 200, state := st',
      body := some ⟨new.lang_code, new.voice, voices⟩ }

/-- JSON body of a `POST /synthesize_file` request: `data.get("text", "")`
and `data.get("voice", settings.voice)` make both fields optional. -/
structure SynthRequest where
  text : Option String
  voice : Option String
deriving DecidableEq

/-- Result of the `POST /synthesize_file` handler: HTTP status, server
state after the request, response body bytes when status 200, and the
`(text, voice)` argument pair of the `pipeline(...)` call when synthesis
was invoked. -/
structure FileResponse where
  status : Nat
  state : ServerState
  body : Option (List Nat)
  pipelineCall : Option (String × String)
deriving DecidableEq

/-- `synthesize_file` (server.py lines 75-105): strips the text, defaults
the voice to `settings.voice`, 400 on empty text, otherwise runs the
pipeline (the external engine `engine` maps text and voice to the list of
audio frames, each already converted to bytes by `.tobytes()`), 500 when
no frames are produced, otherwise 200 with the WAV body of the joined
PCM bytes. -/
def synthesize_file (engine : String → String → List (List Nat))
    (st : ServerState) (req : SynthRequest) : FileResponse :=
  let text := strip (req.text.getD "")
  let voice := req.voice.getD st.settings.voice
  if text = "" then
    { status := 400, state := st, body := none, pipelineCall := none }
  else
    let frames := engine text voice
    if frames = [] then
      { status := 500, state := st, body := none,
        pipelineCall := some (text, voice) }
    else
      { status := 200, state := st, body := some (write_wav frames.flatten),
        pipelineCall := some (text, voice) }

end Kokorofile

/- ============================ Theorems ============================ -/

namespace Kokorofile

/-- Helper: `write_wav` unfolded to the explicit 44-byte header followed by
the PCM bytes. -/
theorem write_wav_eq (pcm : List Nat) : write_wav pcm =
    82 :: 73 :: 70 :: 70 ::
    ((36 + pcm.length) % 256) :: ((36 + pcm.length) / 256 % 256) ::
    ((36 + pcm.length) / 65536 % 256) ::
    ((36 + pcm.length) / 16777216 % 256) ::
    87 :: 65 :: 86 :: 69 ::
    102 :: 109 :: 116 :: 32 ::
    16 :: 0 :: 0 :: 0 ::
    1 :: 0 ::
    1 :: 0 ::
    192 :: 93 :: 0 :: 0 ::
    128 :: 187 :: 0 :: 0 ::
    2 :: 0 ::
    16 :: 0 ::
    100 :: 97 :: 116 :: 97 ::
    (pcm.length % 256) :: (pcm.length / 256 % 256) ::
    (pcm.length / 65536 % 256) :: (pcm.length / 16777216 % 256) :: pcm := by
  simp [write_wav, wav_header, u32le, u16le]

/-- C1: every non-`none` body produced by `/synthesize_file` is
`write_wav` of some PCM byte string, and for every non-empty PCM byte
string (of size small enough for the 32-bit size fields, as `struct.pack`
with `<L` requires), `write_wav` output begins with a 44-byte canonical
RIFF header with little-endian fields in which ChunkSize = 36 + dataSize,
Subchunk2Size = dataSize, NumChannels = 1, BitsPerSample = 16,
SampleRate = 24000 and ByteRate = SampleRate * NumChannels *
BitsPerSample / 8. -/
theorem synthesize_file_wav_header_canonical :
    (∀ engine st req out, (synthesize_file engine st req).body = some out →
      ∃ pcm, out = write_wav pcm) ∧
    (∀ pcm : List Nat, pcm ≠ [] → 36 + pcm.length < 2 ^ 32 →
      (write_wav pcm).length = 44 + pcm.length ∧
      (write_wav pcm).take 44 = wav_header pcm.length ∧
      readU32 (write_wav pcm) 4 = 36 + pcm.length ∧
      readU32 (write_wav pcm) 40 = pcm.length ∧
      readU16 (write_wav pcm) 22 = 1 ∧
      readU16 (write_wav pcm) 34 = 16 ∧
      readU32 (write_wav pcm) 24 = 24000 ∧
      readU32 (write_wav pcm) 28 = 24000 * 1 * (16 / 8)) := by
  constructor
  · intro engine st req out h
    unfold synthesize_file at h
    by_cases ht : strip (req.text.getD "") = "" <;> simp [ht] at h
    by_cases hf : engine (strip (req.text.getD ""))
        (req.voice.getD st.settings.voice) = [] <;> simp [hf] at h
    exact ⟨_, h.symm⟩
  · intro pcm _ hsz
    refine ⟨?_, ?_, ?_, ?_, ?_, ?_, ?_, ?_⟩
    · rw [write_wav_eq]; simp; omega
    · rw [write_wav_eq]; simp [wav_header, u32le, u16le]
    · rw [write_wav_eq]
      simp [readU32, List.getD_cons_succ, List.getD_cons_zero]
      omega
    · rw [write_wav_eq]
      simp [readU32, List.getD_cons_succ, List.getD_cons_zero]
      omega
    · rw [write_wav_eq]
      simp [readU16, List.getD_cons_succ, List.getD_cons_zero]
    · rw [write_wav_eq]
      simp [readU16, List.getD_cons_succ, List.getD_cons_zero]
    · rw [write_wav_eq]
      simp only [readU32, List.getD_cons_succ, List.getD_cons_zero]
    · rw [write_wav_eq]
      simp only [readU32, List.getD_cons_succ, List.getD_cons_zero]

/-- C1 witness: concrete two-byte PCM input. -/
theorem synthesize_file_wav_header_canonical_witness :
    (write_wav [7, 9]).length = 44 + 2 ∧
    readU32 (write_wav [7, 9]) 4 = 38 ∧
    readU32 (write_wav [7, 9]) 40 = 2 ∧
    readU16 (write_wav [7, 9]) 22 = 1 := by
  have h := synthesize_file_wav_header_canonical.2 [7, 9] (by decide)
    (by decide)
  exact ⟨h.1, h.2.2.1, h.2.2.2.1, h.2.2.2.2.1⟩

/-- Helper: a voices directory holding the single file `af_sky.pt`. -/
def fs0 : FS := ⟨true, ["af_sky.pt"]⟩

/-- Helper: a missing voices directory (the `ptFiles` component is what a
glob would yield if it existed, and must be ignored). -/
def fsNoDir : FS := ⟨false, ["af_sky.pt"]⟩

/-- Helper: `synthesize_file` never mutates the server state. -/
theorem synthesize_file_state_eq (engine : String → String → List (List Nat))
    (st : ServerState) (req : SynthRequest) :
    (synthesize_file engine st req).state = st := by
  unfold synthesize_file
  by_cases ht : strip (req.text.getD "") = "" <;> simp [ht]
  by_cases hf : engine (strip (req.text.getD ""))
      (req.voice.getD st.settings.voice) = [] <;> simp [hf]

/-- C2: `POST /settings` with a voice absent from the available voices
returns HTTP 400 and leaves the server state (settings and pipeline)
unchanged; a successful update stores exactly the requested settings
(last-writer-wins). -/
theorem update_settings_validation_atomic (fs : FS) (st : ServerState)
    (new : Settings) :
    (new.voice ∉ get_available_voices fs →
      (update_settings fs st new).status = 400 ∧
      (update_settings fs st new).state = st) ∧
    (new.voice ∈ get_available_voices fs →
      (update_settings fs st new).status = 200 ∧
      (update_settings fs st new).state.settings = new) := by
  constructor
  · intro h; simp [update_settings, h]
  · intro h; simp [update_settings, h]

/-- C2 witness: with only `af_sky.pt` available, updating to voice `nope`
is rejected with 400 and updating to `af_sky.pt` stores the request. -/
theorem update_settings_validation_atomic_witness :
    (update_settings fs0 server_init ⟨"a", "nope"⟩).status = 400 ∧
    (update_settings fs0 server_init ⟨"b", "af_sky.pt"⟩).state.settings =
      ⟨"b", "af_sky.pt"⟩ :=
  ⟨((update_settings_validation_atomic fs0 server_init ⟨"a", "nope"⟩).1
      (by decide)).1,
   ((update_settings_validation_atomic fs0 server_init
      ⟨"b", "af_sky.pt"⟩).2 (by decide)).2⟩

/-- C9: at startup the pipeline is built from the settings' language code;
a successful `POST /settings` rebuilds the pipeline from the newly stored
`lang_code`; the coherence `pipeline.lang_code = settings.lang_code` is
preserved by every settings update, and `/synthesize_file` never changes
the state. -/
theorem pipeline_settings_coherent :
    server_init.pipeline.lang_code = server_init.settings.lang_code ∧
    (∀ fs st new, (update_settings fs st new).status = 200 →
      (update_settings fs st new).state.pipeline.lang_code = new.lang_code ∧
      (update_settings fs st new).state.settings = new) ∧
    (∀ fs st new, st.pipeline.lang_code = st.settings.lang_code →
      (update_settings fs st new).state.pipeline.lang_code =
        (update_settings fs st new).state.settings.lang_code) ∧
    (∀ engine st req, (synthesize_file engine st req).state = st) := by
  refine ⟨rfl, ?_, ?_, fun engine st req => synthesize_file_state_eq engine st req⟩
  · intro fs st new h
    by_cases hv : new.voice ∉ get_available_voices fs
    · simp [update_settings, hv] at h
    · simp [update_settings, hv, create_pipeline]
  · intro fs st new h
    by_cases hv : new.voice ∉ get_available_voices fs
    · simp [update_settings, hv, h]
    · simp [update_settings, hv, create_pipeline]

/-- C9 witness: a concrete successful update to `lang_code = "b"` yields a
pipeline with language code `"b"`, coherent with the stored settings. -/
theorem pipeline_settings_coherent_witness :
    (update_settings fs0 server_init ⟨"b", "af_sky.pt"⟩).state.pipeline.lang_code
      = "b" ∧
    (update_settings fs0 server_init ⟨"b", "af_sky.pt"⟩).state.pipeline.lang_code
      = (update_settings fs0 server_init
          ⟨"b", "af_sky.pt"⟩).state.settings.lang_code :=
  ⟨(pipeline_settings_coherent.2.1 fs0 server_init ⟨"b", "af_sky.pt"⟩
      (by decide)).1,
   pipeline_settings_coherent.2.2.1 fs0 server_init ⟨"b", "af_sky.pt"⟩ rfl⟩

/-- C10: when the voices directory does not exist `get_available_voices`
returns the empty list, so every `POST /settings` request — whatever voice
and language it asks for — returns 400 and leaves the state unchanged. -/
theorem no_voice_dir_rejects_all_updates (fs : FS)
    (h : fs.voiceDirExists = false) :
    get_available_voices fs = [] ∧
    ∀ st new, (update_settings fs st new).status = 400 ∧
      (update_settings fs st new).state = st := by
  have hg : get_available_voices fs = [] := by simp [get_available_voices, h]
  refine ⟨hg, fun st new => ?_⟩
  simp [update_settings, hg]

/-- C10 witness: with the voices directory absent, even updating to a
voice that a stale glob would list is rejected with 400. -/
theorem no_voice_dir_rejects_all_updates_witness :
    get_available_voices fsNoDir = [] ∧
    (update_settings fsNoDir server_init ⟨"a", "af_sky.pt"⟩).status = 400 :=
  ⟨(no_voice_dir_rejects_all_updates fsNoDir rfl).1,
   ((no_voice_dir_rejects_all_updates fsNoDir rfl).2 server_init
      ⟨"a", "af_sky.pt"⟩).1⟩

/-- Helper: a world in which both artifact files are already cached and
all side-effect counters are zero. -/
def wCached : World := ⟨true, true, 0, 0, 0, 0⟩

/-- C5: resolving the model artifacts is idempotent: when both files are
cached the call performs no download and no filesystem write (the world
is returned unchanged) and yields the fixed pair of paths; a second call
right after a first one is such a no-op, and across the two calls each
artifact is downloaded at most once. -/
theorem download_model_files_idempotent (cacheDir : String) (w : World) :
    (w.hasModelFile = true → w.hasVoicesFile = true →
      download_model_files cacheDir w =
        (w, path_join cacheDir "kokoro-v1.0.onnx",
          path_join cacheDir "voices-v1.0.bin")) ∧
    (download_model_files cacheDir (download_model_files cacheDir w).1 =
      ((download_model_files cacheDir w).1,
        path_join cacheDir "kokoro-v1.0.onnx",
        path_join cacheDir "voices-v1.0.bin")) ∧
    (download_model_files cacheDir w).1.modelDownloads ≤
      w.modelDownloads + 1 ∧
    (download_model_files cacheDir w).1.voicesDownloads ≤
      w.voicesDownloads + 1 := by
  obtain ⟨hm, hv, md, vd, kc, sc⟩ := w
  cases hm <;> cases hv <;> simp [download_model_files]

/-- C5 witness: with both artifacts cached, the resolver returns the world
untouched together with the two cache paths. -/
theorem download_model_files_idempotent_witness :
    download_model_files "cache" wCached =
      (wCached, path_join "cache" "kokoro-v1.0.onnx",
        path_join "cache" "voices-v1.0.bin") :=
  (download_model_files_idempotent "cache" wCached).1 rfl rfl

/-- C3 counterexample: two successive CLI synthesis calls on a fully
cached world construct two `Kokoro` model instances — the second call
does not reuse the instance built by the first, contradicting the claimed
single shared instance. -/
theorem single_model_instance_counterexample :
    ¬ ((text_to_speech "hi" none none "af_sarah" "en-us" "c" true
        ((text_to_speech "hi" none none "af_sarah" "en-us" "c" true
          wCached).1)).1.kokoroConstructions ≤ 1) := by
  decide

/-- C3 amended: in the CLI variant every `text_to_speech` call constructs
exactly one fresh model instance (no reuse across calls); in the HTTP
variant the core model is loaded once, eagerly, at module import, and
neither synthesis requests nor settings updates load another. -/
theorem model_construction_discipline :
    (∀ text output device voice lang cacheDir ok w,
      ((text_to_speech text output device voice lang cacheDir ok
        w).1).kokoroConstructions = w.kokoroConstructions + 1) ∧
    server_init.modelLoads = 1 ∧
    (∀ engine st req,
      (synthesize_file engine st req).state.modelLoads = st.modelLoads) ∧
    (∀ fs st new,
      (update_settings fs st new).state.modelLoads = st.modelLoads) := by
  refine ⟨?_, rfl, ?_, ?_⟩
  · intro text output device voice lang cacheDir ok w
    obtain ⟨hm, hv, md, vd, kc, sc⟩ := w
    cases hm <;> cases hv <;> simp [text_to_speech, download_model_files]
  · intro engine st req
    rw [synthesize_file_state_eq]
  · intro fs st new
    by_cases hv : new.voice ∉ get_available_voices fs <;>
      simp [update_settings, hv]

/-- Helper: an engine that always produces one two-byte audio frame. -/
def engine0 : String → String → List (List Nat) := fun _ _ => [[0, 1]]

/-- Helper: an engine that never produces audio frames. -/
def engineSilent : String → String → List (List Nat) := fun _ _ => []

/-- C4 counterexample: a `/synthesize_file` request naming a voice that is
not among the available voices is not rejected — the pipeline is invoked
with that very voice and the request answers 200, so the HTTP variant
does not validate the per-request voice before synthesis. -/
theorem http_voice_validated_counterexample :
    (synthesize_file engine0 server_init
      ⟨some "hi", some "bogus"⟩).pipelineCall = some ("hi", "bogus") ∧
    "bogus" ∉ get_available_voices fs0 ∧
    (synthesize_file engine0 server_init
      ⟨some "hi", some "bogus"⟩).status = 200 := by
  refine ⟨rfl, by decide, rfl⟩

/-- C4 amended: voice validation happens only in `POST /settings`:
`/synthesize_file` passes the request's voice (defaulting to the stored
settings voice) to the pipeline unvalidated and returns 400 only for
empty text; `update_settings` returns 400 exactly for unavailable voices;
and the CLI synthesis path invokes the engine for every voice, with no
validation. -/
theorem voice_validation_only_in_settings :
    (∀ engine st req, strip (req.text.getD "") ≠ "" →
      (synthesize_file engine st req).pipelineCall =
        some (strip (req.text.getD ""), req.voice.getD st.settings.voice)) ∧
    (∀ engine st req, (synthesize_file engine st req).status = 400 →
      strip (req.text.getD "") = "") ∧
    (∀ fs st new, (update_settings fs st new).status = 400 ↔
      new.voice ∉ get_available_voices fs) ∧
    (∀ text output device voice lang cacheDir ok w,
      ((text_to_speech text output device voice lang cacheDir ok
        w).1).synthCalls = w.synthCalls + 1) := by
  refine ⟨?_, ?_, ?_, ?_⟩
  · intro engine st req ht
    unfold synthesize_file
    simp only [ht, if_neg (by exact fun h => ht h)]
    by_cases hf : engine (strip (req.text.getD ""))
        (req.voice.getD st.settings.voice) = [] <;> simp [ht, hf]
  · intro engine st req h
    unfold synthesize_file at h
    by_cases ht : strip (req.text.getD "") = ""
    · exact ht
    · exfalso
      simp only [ht, if_neg (fun hh => ht hh)] at h
      by_cases hf : engine (strip (req.text.getD ""))
          (req.voice.getD st.settings.voice) = [] <;> simp [hf] at h
  · intro fs st new
    by_cases hv : new.voice ∉ get_available_voices fs <;>
      simp [update_settings, hv]
  · intro text output device voice lang cacheDir ok w
    obtain ⟨hm, hv, md, vd, kc, sc⟩ := w
    cases hm <;> cases hv <;> simp [text_to_speech, download_model_files]

/-- C4 amended witness: a concrete unvalidated pass-through and a concrete
rejected settings update. -/
theorem voice_validation_only_in_settings_witness :
    (synthesize_file engine0 server_init ⟨some "hi", some "v"⟩).pipelineCall
      = some ("hi", "v") ∧
    ((update_settings fs0 server_init ⟨"a", "nope"⟩).status = 400 ↔
      "nope" ∉ get_available_voices fs0) :=
  ⟨voice_validation_only_in_settings.1 engine0 server_init
      ⟨some "hi", some "v"⟩ (by decide),
   voice_validation_only_in_settings.2.2.1 fs0 server_init ⟨"a", "nope"⟩⟩

/-- C6: `/synthesize_file` answers 400 when the stripped text is empty,
500 when the pipeline produces no audio frames, and otherwise 200 with a
non-empty WAV body. -/
theorem synthesize_file_status_logic
    (engine : String → String → List (List Nat)) (st : ServerState)
    (req : SynthRequest) :
    (strip (req.text.getD "") = "" →
      (synthesize_file engine st req).status = 400) ∧
    (strip (req.text.getD "") ≠ "" →
      engine (strip (req.text.getD "")) (req.voice.getD st.settings.voice)
          = [] →
      (synthesize_file engine st req).status = 500) ∧
    (strip (req.text.getD "") ≠ "" →
      engine (strip (req.text.getD "")) (req.voice.getD st.settings.voice)
          ≠ [] →
      (synthesize_file engine st req).status = 200 ∧
      ∃ out, (synthesize_file engine st req).body = some out ∧
        out ≠ []) := by
  refine ⟨?_, ?_, ?_⟩
  · intro ht; simp [synthesize_file, ht]
  · intro ht hf; simp [synthesize_file, ht, hf]
  · intro ht hf
    have hb : (synthesize_file engine st req).body =
        some (write_wav (engine (strip (req.text.getD ""))
          (req.voice.getD st.settings.voice)).flatten) := by
      simp [synthesize_file, ht, hf]
    refine ⟨by simp [synthesize_file, ht, hf], write_wav _, hb, ?_⟩
    rw [write_wav_eq]
    simp

/-- C6 witness: whitespace-only text yields 400, a silent engine yields
500, and a one-frame engine yields 200. -/
theorem synthesize_file_status_logic_witness :
    (synthesize_file engine0 server_init ⟨some "  ", none⟩).status = 400 ∧
    (synthesize_file engineSilent server_init ⟨some "hi", none⟩).status
      = 500 ∧
    (synthesize_file engine0 server_init ⟨some "hi", none⟩).status = 200 :=
  ⟨(synthesize_file_status_logic engine0 server_init
      ⟨some "  ", none⟩).1 (by decide),
   (synthesize_file_status_logic engineSilent server_init
      ⟨some "hi", none⟩).2.1 (by decide) (by decide),
   ((synthesize_file_status_logic engine0 server_init
      ⟨some "hi", none⟩).2.2 (by decide) (by decide)).1⟩

/-- C7: on the CLI synthesis path (no `--server`, no `-l`), the exit code
is 1 exactly when the resolved input text is empty or the synthesis call
fails, in which case stderr is non-empty; empty resolved text produces
the `No input text provided` stderr message; the exit code is 0 exactly
on non-empty text and successful synthesis. -/
theorem cli_exit_codes (args : Args) (stdinText : String)
    (readFile : String → Option String) (cacheDir : String)
    (synthOk : Bool) (synthErr : String) (w : World)
    (hs : args.server = false) (hl : args.list_devices = false) :
    ((main args stdinText readFile cacheDir synthOk synthErr w).exitCode = 1
      ↔ (resolve_text args.input stdinText readFile = "" ∨
          synthOk = false)) ∧
    ((main args stdinText readFile cacheDir synthOk synthErr w).exitCode = 0
      ↔ (resolve_text args.input stdinText readFile ≠ "" ∧
          synthOk = true)) ∧
    ((main args stdinText readFile cacheDir synthOk synthErr w).exitCode = 1
      → (main args stdinText readFile cacheDir synthOk synthErr w).stderr
          ≠ []) ∧
    (resolve_text args.input stdinText readFile = "" →
      (main args stdinText readFile cacheDir synthOk synthErr w).stderr =
        ["Error: " ++ "No input text provided"]) := by
  by_cases ht : resolve_text args.input stdinText readFile = "" <;>
    cases synthOk <;>
      simp [main, hs, hl, ht, text_to_speech]

/-- Helper: CLI arguments with no positional input, not listing devices,
not in server mode. -/
def argsStdin : Args := ⟨none, none, none, false, "af_sarah", "en-us", false⟩

/-- C7 witness: no positional argument and empty stdin exits 1 with the
`No input text provided` stderr message. -/
theorem cli_exit_codes_witness :
    (main argsStdin "" (fun _ => (none : Option String)) "c" true "boom"
      wCached).exitCode = 1 ∧
    (main argsStdin "" (fun _ => (none : Option String)) "c" true "boom"
      wCached).stderr = ["Error: " ++ "No input text provided"] :=
  ⟨(cli_exit_codes argsStdin "" (fun _ => (none : Option String)) "c" true
      "boom" wCached rfl rfl).1.mpr (Or.inl (by decide)),
   (cli_exit_codes argsStdin "" (fun _ => (none : Option String)) "c" true
      "boom" wCached rfl rfl).2.2.2 (by decide)⟩

/-- C8: with `-l` given and `--server` absent, the CLI never enters the
synthesis path: the world is unchanged (no download, no model
construction, no synthesis call) and the exit code is 0, whatever the
other arguments are. -/
theorem list_devices_no_synthesis (args : Args) (stdinText : String)
    (readFile : String → Option String) (cacheDir : String)
    (synthOk : Bool) (synthErr : String) (w : World)
    (hl : args.list_devices = true) (hs : args.server = false) :
    (main args stdinText readFile cacheDir synthOk synthErr w).world = w ∧
    (main args stdinText readFile cacheDir synthOk synthErr w).exitCode
      = 0 := by
  simp [main, hl, hs]

/-- Helper: CLI arguments combining `-l` with a full set of synthesis
arguments. -/
def argsList : Args :=
  ⟨some "some text", some "out.wav", some 3, true, "af_sarah", "en-us",
    false⟩

/-- C8 witness: `-l` together with input and output arguments leaves the
world untouched and exits 0. -/
theorem list_devices_no_synthesis_witness :
    (main argsList "ignored" (fun _ => (none : Option String)) "c" true "e"
      wCached).world = wCached ∧
    (main argsList "ignored" (fun _ => (none : Option String)) "c" true "e"
      wCached).exitCode = 0 :=
  list_devices_no_synthesis argsList "ignored"
    (fun _ => (none : Option String)) "c" true "e" wCached rfl rfl

end Kokorofile
